import Mathlib

/-!
A shallow embedding of the error-log, process-status, timezone-resolution and
load-error-file logic of `be/src/runtime/runtime_state.cpp` (the StarRocks
`RuntimeState` fragment execution context), together with proofs of the
specification claims about it.

The embedding models exactly the state a fragment's `RuntimeState` carries for
these paths: the bounded error log with its unreported cursor, the
write-once process status, the resolved timezone/timestamp, the lazily opened
error-log file (as the list of lines written to it) and the load-error hub (as
the list of messages exported to it).  External collaborators (the timezone
parsing utility, the load-path manager that opens the file, the pretty
printer, the hub transport) are parameters of the functions that use them.
-/

namespace starrocks

/-- Workload type of a fragment (thrift `TQueryType`); only `LOAD` is
distinguished by the code under study. -/
inductive TQueryType where
  | SELECT
  | LOAD
  | EXTERNAL
  deriving DecidableEq, Repr

/-- The subset of thrift `TQueryOptions` read by the embedded code. -/
structure TQueryOptions where
  query_type : TQueryType
  max_errors : Int
  batch_size : Int
  deriving DecidableEq, Repr

/-- The subset of thrift `TQueryGlobals` read by the embedded code.
`isset_time_zone` models `query_globals.__isset.time_zone`. -/
structure TQueryGlobals where
  isset_time_zone : Bool
  time_zone : String
  timestamp_ms : Int
  now_string : String
  deriving DecidableEq, Repr

/-- The `Status` values produced or inspected by the embedded code. -/
inductive Status where
  | ok
  | memoryLimitExceeded (msg : String)
  | internalError (msg : String)
  | cancelled (msg : String)
  deriving DecidableEq, Repr

/-- `Status::ok()`. -/
def Status.isOk : Status → Bool
  | Status.ok => true
  | _ => false

/-- `Status::get_error_msg()` (empty for an OK status). -/
def Status.get_error_msg : Status → String
  | Status.ok => ""
  | Status.memoryLimitExceeded m => m
  | Status.internalError m => m
  | Status.cancelled m => m

/-- Modelled from the spec: `TimezoneUtils::default_time_zone` lives in
`util/timezone_utils` which is outside the given source; the spec only calls
it "the default zone", so its concrete value is immaterial to every claim. -/
def default_time_zone : String := "Asia/Shanghai"

/-- Modelled from the spec: `DEFAULT_BATCH_SIZE` is declared in
`runtime_state.h`, which is outside the given source; the spec only calls it
"the default batch size", so its concrete value is immaterial to every claim. -/
def DEFAULT_BATCH_SIZE : Int := 2048

/-- Source constant (`runtime_state.cpp` line 347): the cap on printed error
rows for the error file. -/
def MAX_ERROR_NUM : Nat := 50

/-- The fields of `RuntimeState` mutated or read by the embedded member
functions.  `_error_log_file = some lines` models an open `std::ofstream`
holding the lines written so far; `none` models the null pointer.
`_error_hub = some msgs` models a created hub that has received `msgs`;
`_load_error_hub_info` models whether `_load_error_hub_info` is non-null. -/
structure RuntimeState where
  _error_log : List String
  _unreported_error_idx : Nat
  _query_options : TQueryOptions
  _process_status : Status
  _error_log_file : Option (List String)
  _num_print_error_rows : Nat
  _error_hub : Option (List String)
  _load_error_hub_info : Bool
  _timezone : String
  _timestamp_ms : Int
  deriving DecidableEq, Repr

/-- Timezone/timestamp resolution shared verbatim by
`RuntimeState::init` (lines 166-180) and the globals-only constructor
(lines 99-113).  `parse` stands for the external
`DateTimeValue::from_date_str` + `unix_timestamp` pipeline, which is run with
the default time zone on the branch that uses it. -/
def resolve_timezone (parse : String → Int) (g : TQueryGlobals) : String × Int :=
  if g.isset_time_zone then
    (g.time_zone, g.timestamp_ms)
  else if g.now_string ≠ "" then
    (default_time_zone, parse g.now_string * 1000)
  else
    (default_time_zone, 0)

/-- `RuntimeState::init(fragment_instance_id, query_options, query_globals,
exec_env)` restricted to the modelled fields: stores the query options,
resolves the timezone, then replaces a non-positive `max_errors` by 100 and a
non-positive `batch_size` by `DEFAULT_BATCH_SIZE` (lines 162-208). -/
def RuntimeState.init (parse : String → Int) (s : RuntimeState)
    (query_options : TQueryOptions) (query_globals : TQueryGlobals) : RuntimeState :=
  let tz := resolve_timezone parse query_globals
  let qo1 :=
    if query_options.max_errors ≤ 0 then
      { query_options with max_errors := 100 }
    else query_options
  let qo2 :=
    if qo1.batch_size ≤ 0 then
      { qo1 with batch_size := DEFAULT_BATCH_SIZE }
    else qo1
  { s with _query_options := qo2, _timezone := tz.1, _timestamp_ms := tz.2 }

/-- The globals-only constructor `RuntimeState::RuntimeState(const
TQueryGlobals&)` (lines 92-115): a fresh state whose query options are the
thrift defaults with only `batch_size` overwritten by `DEFAULT_BATCH_SIZE`
(line 98 — `init` is NOT called, so the `max_errors` fixup does not run),
followed by the same timezone resolution. -/
def RuntimeState.fromQueryGlobals (parse : String → Int)
    (thrift_default_options : TQueryOptions) (query_globals : TQueryGlobals) : RuntimeState :=
  let tz := resolve_timezone parse query_globals
  { _error_log := []
    _unreported_error_idx := 0
    _query_options := { thrift_default_options with batch_size := DEFAULT_BATCH_SIZE }
    _process_status := Status.ok
    _error_log_file := none
    _num_print_error_rows := 0
    _error_hub := none
    _load_error_hub_info := false
    _timezone := tz.1
    _timestamp_ms := tz.2 }

/-- The C++ admission check `_error_log.size() < _query_options.max_errors`
compares a `size_t` with a signed integer, which converts `max_errors` to an
unsigned 64-bit value: a negative `max_errors` wraps modulo 2^64. -/
def max_errors_as_size_t (q : TQueryOptions) : Nat :=
  (q.max_errors % (2 : Int) ^ 64).toNat

/-- `RuntimeState::error_log()` (lines 274-277): join the whole log with
newlines; no state is mutated (the state component records that). -/
def RuntimeState.error_log (s : RuntimeState) : String × RuntimeState :=
  (String.intercalate "\n" s._error_log, s)

/-- `RuntimeState::log_error(const std::string&)` (lines 279-288): append if
the log is below `max_errors`, return whether it was accepted. -/
def RuntimeState.log_error (s : RuntimeState) (error : String) : Bool × RuntimeState :=
  if s._error_log.length < max_errors_as_size_t s._query_options then
    (true, { s with _error_log := s._error_log ++ [error] })
  else
    (false, s)

/-- `RuntimeState::log_error(const Status&)` (lines 290-296): no-op for an OK
status, otherwise the string form on the status's message. -/
def RuntimeState.log_error_status (s : RuntimeState) (status : Status) : RuntimeState :=
  if status.isOk then s
  else (s.log_error status.get_error_msg).2

/-- `RuntimeState::get_unreported_errors(std::vector<std::string>*)` (lines
298-305).  `new_errors` is the incoming contents of the out-vector: the code
only `assign`s to it (replacing its contents) when the cursor is strictly
before the end of the log, and then advances the cursor. -/
def RuntimeState.get_unreported_errors (s : RuntimeState) (new_errors : List String) :
    List String × RuntimeState :=
  if s._unreported_error_idx < s._error_log.length then
    (s._error_log.drop s._unreported_error_idx,
      { s with _unreported_error_idx := s._error_log.length })
  else
    (new_errors, s)

/-- `RuntimeState::set_mem_limit_exceeded(MemTracker*, int64_t, const
std::string*)` (lines 307-335).  `tracker_label` stands for
`tracker->label()` and `pretty` for the external `PrettyPrinter::print` of the
failed allocation size.  First-failure-wins: only an OK process status is
overwritten; otherwise the recorded status is returned with no other effect. -/
def RuntimeState.set_mem_limit_exceeded (s : RuntimeState) (tracker_label : String)
    (pretty : Int → String) (failed_allocation_size : Int) (msg : Option String) :
    Status × RuntimeState :=
  if s._process_status.isOk then
    let st :=
      match msg with
      | some m => Status.memoryLimitExceeded m
      | none => Status.memoryLimitExceeded "Memory limit exceeded"
    let s1 := { s with _process_status := st }
    let ss := "Memory Limit Exceeded\n" ++
      (if failed_allocation_size ≠ 0 then
        "  " ++ tracker_label ++ " could not allocate " ++ pretty failed_allocation_size ++
          " without exceeding limit.\n"
      else "")
    let s2 := (s1.log_error ss).2
    (s2._process_status, s2)
  else
    (s._process_status, s)

/-- `RuntimeState::export_load_error(const std::string&)` (lines 406-417): if
no hub exists and no hub configuration exists, do nothing; otherwise lazily
create the hub (external `LoadErrorHub::create_hub`) and export the message. -/
def RuntimeState.export_load_error (s : RuntimeState) (err_msg : String) : RuntimeState :=
  match s._error_hub with
  | none =>
    if s._load_error_hub_info then
      { s with _error_hub := some [err_msg] }
    else s
  | some msgs => { s with _error_hub := some (msgs ++ [err_msg]) }

/-- The line formatted for one `append_error_msg_to_file` call (lines
388-396): a summary line or a reason line carrying the source line. -/
def formatted_error_line (line : String) (error_msg : String) (is_summary : Bool) : String :=
  if is_summary then "Summary: " ++ error_msg
  else "Reason: " ++ error_msg ++ ". src line: [" ++ line ++ "]; "

/-- The body of `RuntimeState::append_error_msg_to_file` after the error file
is known to be open (lines 382-402): unconditionally `fetch_add` the printed
counter, suppress a non-summary message whose pre-increment count exceeds
`MAX_ERROR_NUM`, otherwise format the line, write it to the file and forward
it to the hub. -/
def RuntimeState.append_after_open (s : RuntimeState) (line : String) (error_msg : String)
    (is_summary : Bool) : RuntimeState :=
  let prev := s._num_print_error_rows
  let s1 := { s with _num_print_error_rows := prev + 1 }
  if MAX_ERROR_NUM < prev ∧ is_summary = false then
    s1
  else
    let out := formatted_error_line line error_msg is_summary
    if out = "" then s1
    else
      let s2 := { s1 with _error_log_file := s1._error_log_file.map (fun f => f ++ [out]) }
      s2.export_load_error out

/-- `RuntimeState::append_error_msg_to_file(line, error_msg, is_summary)`
(lines 364-402).  A no-op unless the query type is `LOAD`.  If the file is not
yet open it is opened here; `open_ok` stands for the outcome of the external
`create_error_log_file` (load-path manager + filesystem): on failure the
message is dropped and the state is left without a file. -/
def RuntimeState.append_error_msg_to_file (open_ok : Bool) (s : RuntimeState) (line : String)
    (error_msg : String) (is_summary : Bool) : RuntimeState :=
  if s._query_options.query_type ≠ TQueryType.LOAD then
    s
  else
    match s._error_log_file with
    | none =>
      if open_ok then
        RuntimeState.append_after_open { s with _error_log_file := some [] } line error_msg
          is_summary
      else s
    | some _ => RuntimeState.append_after_open s line error_msg is_summary

/-- Run a sequence of `append_error_msg_to_file` calls, each given as
`(line, error_msg, is_summary)`. -/
def run_error_file_calls (open_ok : Bool) (s : RuntimeState)
    (calls : List (String × String × Bool)) : RuntimeState :=
  calls.foldl (fun t c => t.append_error_msg_to_file open_ok c.1 c.2.1 c.2.2) s

/-- Run a sequence of `log_error` calls, collecting the returned booleans. -/
def run_log_errors (s : RuntimeState) : List String → List Bool × RuntimeState
  | [] => ([], s)
  | m :: ms =>
    let r1 := s.log_error m
    let r2 := run_log_errors r1.2 ms
    (r1.1 :: r2.1, r2.2)

/-- One `set_mem_limit_exceeded` call's arguments. -/
structure MemLimitCall where
  tracker_label : String
  failed_allocation_size : Int
  msg : Option String
  deriving DecidableEq, Repr

/-- The status a `set_mem_limit_exceeded` call records when it finds the
process status OK. -/
def mem_limit_status (msg : Option String) : Status :=
  match msg with
  | some m => Status.memoryLimitExceeded m
  | none => Status.memoryLimitExceeded "Memory limit exceeded"

/-- Run a sequence of `set_mem_limit_exceeded` calls, collecting the statuses
returned to the callers. -/
def run_set_mem_limit_calls (pretty : Int → String) (s : RuntimeState) :
    List MemLimitCall → List Status × RuntimeState
  | [] => ([], s)
  | c :: cs =>
    let r1 := s.set_mem_limit_exceeded c.tracker_label pretty c.failed_allocation_size c.msg
    let r2 := run_set_mem_limit_calls pretty r1.2 cs
    (r1.1 :: r2.1, r2.2)

/-- The error-log operations whose interleavings claim C6 quantifies over. -/
inductive ErrorOp where
  | logError (msg : String)
  | getUnreported
  | errorLogRead
  deriving DecidableEq, Repr

/-- State effect of one error-log operation (`get_unreported_errors` is called
with a fresh out-vector; its return value does not affect the state). -/
def apply_error_op (s : RuntimeState) : ErrorOp → RuntimeState
  | ErrorOp.logError m => (s.log_error m).2
  | ErrorOp.getUnreported => (s.get_unreported_errors []).2
  | ErrorOp.errorLogRead => (s.error_log).2

/-- Run a sequence of error-log operations. -/
def run_error_ops (s : RuntimeState) (ops : List ErrorOp) : RuntimeState :=
  ops.foldl apply_error_op s

/-! ### Concrete fixtures used by the witness theorems -/

/-- Query options of a load fragment with `max_errors = 100`. -/
def test_options : TQueryOptions :=
  { query_type := TQueryType.LOAD, max_errors := 100, batch_size := 1024 }

/-- A freshly initialized load fragment state. -/
def test_state : RuntimeState :=
  { _error_log := []
    _unreported_error_idx := 0
    _query_options := test_options
    _process_status := Status.ok
    _error_log_file := none
    _num_print_error_rows := 0
    _error_hub := none
    _load_error_hub_info := false
    _timezone := "UTC"
    _timestamp_ms := 0 }

/-! ### Helper lemmas -/

/-- `log_error` touches only the error log. -/
theorem log_error_state_frame (s : RuntimeState) (m : String) :
    ((s.log_error m).2)._process_status = s._process_status ∧
    ((s.log_error m).2)._query_options = s._query_options ∧
    ((s.log_error m).2)._unreported_error_idx = s._unreported_error_idx := by
  unfold RuntimeState.log_error
  split <;> exact ⟨rfl, rfl, rfl⟩

/-- The status recorded by a first `set_mem_limit_exceeded` call is never OK. -/
theorem mem_limit_status_not_ok (msg : Option String) : (mem_limit_status msg).isOk = false := by
  cases msg <;> rfl

/-- Effect of a `set_mem_limit_exceeded` call that finds the process status
OK: it records `mem_limit_status msg` and returns it. -/
theorem set_mem_limit_exceeded_of_ok (s : RuntimeState) (lbl : String) (pretty : Int → String)
    (sz : Int) (msg : Option String) (h : s._process_status = Status.ok) :
    (s.set_mem_limit_exceeded lbl pretty sz msg).1 = mem_limit_status msg ∧
    ((s.set_mem_limit_exceeded lbl pretty sz msg).2)._process_status = mem_limit_status msg := by
  unfold RuntimeState.set_mem_limit_exceeded
  have hok : s._process_status.isOk = true := by rw [h]; rfl
  rw [hok]
  simp only [if_true]
  cases msg <;>
    simp [mem_limit_status, log_error_state_frame, RuntimeState.log_error] <;>
    split <;> rfl

/-- Effect of a `set_mem_limit_exceeded` call that finds a failure already
recorded: the existing status is returned and nothing changes. -/
theorem set_mem_limit_exceeded_of_failed (s : RuntimeState) (lbl : String)
    (pretty : Int → String) (sz : Int) (msg : Option String)
    (h : s._process_status.isOk = false) :
    s.set_mem_limit_exceeded lbl pretty sz msg = (s._process_status, s) := by
  unfold RuntimeState.set_mem_limit_exceeded
  rw [h]
  simp

/-- Once a failure is recorded, every further `set_mem_limit_exceeded` call
returns it unchanged and leaves the state untouched. -/
theorem run_set_mem_limit_calls_of_failed (pretty : Int → String) (s : RuntimeState)
    (calls : List MemLimitCall) (h : s._process_status.isOk = false) :
    run_set_mem_limit_calls pretty s calls =
      (List.replicate calls.length s._process_status, s) := by
  induction calls with
  | nil => rfl
  | cons c cs ih =>
    unfold run_set_mem_limit_calls
    rw [set_mem_limit_exceeded_of_failed s c.tracker_label pretty c.failed_allocation_size c.msg h]
    simp [ih, List.replicate_succ]

/-- `export_load_error` touches only the hub. -/
theorem export_load_error_frame (s : RuntimeState) (m : String) :
    (s.export_load_error m)._error_log_file = s._error_log_file ∧
    (s.export_load_error m)._num_print_error_rows = s._num_print_error_rows ∧
    (s.export_load_error m)._query_options = s._query_options := by
  unfold RuntimeState.export_load_error
  cases s._error_hub with
  | none => by_cases h : s._load_error_hub_info = true <;> simp [h]
  | some msgs => exact ⟨rfl, rfl, rfl⟩

/-- A formatted error line is never the empty string (both formats start with
a nonempty prefix), so the write-guard at line 398 never drops a line. -/
theorem formatted_error_line_ne_empty (line : String) (error_msg : String) (is_summary : Bool) :
    formatted_error_line line error_msg is_summary ≠ "" := by
  intro h
  have hlen := congrArg String.length h
  cases is_summary with
  | false =>
    simp [formatted_error_line, String.length_append] at hlen
    exact absurd hlen.1.1.1.1 (by decide)
  | true =>
    simp [formatted_error_line, String.length_append] at hlen
    exact absurd hlen.1 (by decide)

/-- Effect of one `append_error_msg_to_file` call on a load state whose error
file is open: the counter always advances; the formatted line reaches the
file unless this is a non-summary call whose pre-increment counter already
exceeds `MAX_ERROR_NUM`. -/
theorem append_error_msg_open_effect (open_ok : Bool) (s : RuntimeState) (f : List String)
    (l m : String) (b : Bool) (hload : s._query_options.query_type = TQueryType.LOAD)
    (hfile : s._error_log_file = some f) :
    (s.append_error_msg_to_file open_ok l m b)._error_log_file =
      some (if MAX_ERROR_NUM < s._num_print_error_rows ∧ b = false then f
        else f ++ [formatted_error_line l m b]) ∧
    (s.append_error_msg_to_file open_ok l m b)._num_print_error_rows =
      s._num_print_error_rows + 1 ∧
    (s.append_error_msg_to_file open_ok l m b)._query_options = s._query_options := by
  unfold RuntimeState.append_error_msg_to_file
  rw [hload, hfile]
  simp only [ne_eq, not_true_eq_false, if_false, reduceCtorEq, ite_false]
  unfold RuntimeState.append_after_open
  by_cases hc : MAX_ERROR_NUM < s._num_print_error_rows ∧ b = false
  · rw [if_pos hc, if_pos hc]
    exact ⟨hfile, rfl, rfl⟩
  · rw [if_neg hc, if_neg hc]
    rw [if_neg (formatted_error_line_ne_empty l m b)]
    refine ⟨?_, ?_, ?_⟩
    · rw [(export_load_error_frame _ _).1]
      simp [hfile]
    · rw [(export_load_error_frame _ _).2.1]
    · rw [(export_load_error_frame _ _).2.2]

/-- Effect of a run of non-summary `append_error_msg_to_file` calls on a load
state whose error file is open: starting from printed counter `k`, exactly the
first `MAX_ERROR_NUM + 1 - k` of them reach the file (the check at line 384
compares the pre-increment counter strictly against the cap), and the counter
advances once per call. -/
theorem run_reasons_effect (open_ok : Bool) (reasons : List (String × String))
    (s : RuntimeState) (f : List String)
    (hload : s._query_options.query_type = TQueryType.LOAD)
    (hfile : s._error_log_file = some f) :
    (run_error_file_calls open_ok s (reasons.map (fun p => (p.1, p.2, false))))._error_log_file =
      some (f ++ (reasons.take (MAX_ERROR_NUM + 1 - s._num_print_error_rows)).map
        (fun p => formatted_error_line p.1 p.2 false)) ∧
    (run_error_file_calls open_ok s
        (reasons.map (fun p => (p.1, p.2, false))))._num_print_error_rows =
      s._num_print_error_rows + reasons.length ∧
    (run_error_file_calls open_ok s (reasons.map (fun p => (p.1, p.2, false))))._query_options =
      s._query_options := by
  induction reasons generalizing s f with
  | nil => simpa [run_error_file_calls] using hfile
  | cons p ps ih =>
    have hstep := append_error_msg_open_effect open_ok s f p.1 p.2 false hload hfile
    have hrun : run_error_file_calls open_ok s ((p :: ps).map (fun q => (q.1, q.2, false))) =
        run_error_file_calls open_ok (s.append_error_msg_to_file open_ok p.1 p.2 false)
          (ps.map (fun q => (q.1, q.2, false))) := by
      simp [run_error_file_calls]
    rw [hrun]
    set s1 := s.append_error_msg_to_file open_ok p.1 p.2 false with hs1
    by_cases hk : MAX_ERROR_NUM < s._num_print_error_rows
    · have hfile1 : s1._error_log_file = some f := by
        rw [hstep.1, if_pos ⟨hk, rfl⟩]
      have hload1 : s1._query_options.query_type = TQueryType.LOAD := by
        rw [hstep.2.2]; exact hload
      have := ih s1 f hload1 hfile1
      refine ⟨?_, ?_, ?_⟩
      · rw [this.1, hstep.2.1]
        have h0 : MAX_ERROR_NUM + 1 - s._num_print_error_rows = 0 := by omega
        have h0' : MAX_ERROR_NUM + 1 - (s._num_print_error_rows + 1) = 0 := by omega
        rw [h0, h0']
        simp
      · rw [this.2.1, hstep.2.1]
        simp [List.length_cons]
        omega
      · rw [this.2.2, hstep.2.2]
    · have hfile1 : s1._error_log_file = some (f ++ [formatted_error_line p.1 p.2 false]) := by
        rw [hstep.1, if_neg (by simp [hk])]
      have hload1 : s1._query_options.query_type = TQueryType.LOAD := by
        rw [hstep.2.2]; exact hload
      have := ih s1 (f ++ [formatted_error_line p.1 p.2 false]) hload1 hfile1
      refine ⟨?_, ?_, ?_⟩
      · rw [this.1, hstep.2.1]
        have hsucc : MAX_ERROR_NUM + 1 - s._num_print_error_rows =
            (MAX_ERROR_NUM + 1 - (s._num_print_error_rows + 1)) + 1 := by omega
        rw [hsucc, List.take_succ_cons]
        simp
      · rw [this.2.1, hstep.2.1]
        simp [List.length_cons]
        omega
      · rw [this.2.2, hstep.2.2]

/-- The booleans returned by `n` consecutive `log_error` calls against a log
that currently holds `len` entries with admission cap `cap`. -/
def expected_accepts (len cap : Nat) : Nat → List Bool
  | 0 => []
  | Nat.succ n => decide (len < cap) :: expected_accepts (len + 1) cap n

/-- Once the log has reached the cap, every further call is rejected. -/
theorem expected_accepts_of_cap_le (cap len n : Nat) (h : cap ≤ len) :
    expected_accepts len cap n = List.replicate n false := by
  induction n generalizing len with
  | zero => rfl
  | succ n ih =>
    unfold expected_accepts
    rw [ih (len + 1) (by omega), List.replicate_succ]
    simp
    omega

/-- Closed form of `expected_accepts`: the first `cap - len` calls are
accepted, the rest rejected. -/
theorem expected_accepts_closed (cap len n : Nat) :
    expected_accepts len cap n =
      List.replicate (min n (cap - len)) true ++ List.replicate (n - (cap - len)) false := by
  induction n generalizing len with
  | zero => simp [expected_accepts]
  | succ n ih =>
    unfold expected_accepts
    by_cases h : len < cap
    · rw [ih (len + 1)]
      have hmin : min (n + 1) (cap - len) = min n (cap - (len + 1)) + 1 := by omega
      have hsub : n + 1 - (cap - len) = n - (cap - (len + 1)) := by omega
      rw [hmin, hsub, List.replicate_succ]
      simp [h]
    · rw [expected_accepts_of_cap_le cap (len + 1) n (by omega)]
      have h0 : cap - len = 0 := by omega
      rw [h0]
      simp [h]
      exact (List.replicate_succ false n).symm

/-- One `run_log_errors` step-by-step characterization: the returned booleans
follow `expected_accepts`, the final log extends the initial one by the first
`cap - len` messages, and the other fields are untouched. -/
theorem run_log_errors_spec (msgs : List String) (s : RuntimeState) :
    (run_log_errors s msgs).1 =
      expected_accepts s._error_log.length (max_errors_as_size_t s._query_options)
        msgs.length ∧
    ((run_log_errors s msgs).2)._error_log =
      s._error_log ++
        msgs.take (max_errors_as_size_t s._query_options - s._error_log.length) ∧
    ((run_log_errors s msgs).2)._query_options = s._query_options ∧
    ((run_log_errors s msgs).2)._unreported_error_idx = s._unreported_error_idx := by
  induction msgs generalizing s with
  | nil => simp [run_log_errors, expected_accepts]
  | cons m ms ih =>
    unfold run_log_errors RuntimeState.log_error
    by_cases h : s._error_log.length < max_errors_as_size_t s._query_options
    · rw [if_pos h]
      set s1 : RuntimeState := { s with _error_log := s._error_log ++ [m] } with hs1
      have hih := ih s1
      have hlen1 : s1._error_log.length = s._error_log.length + 1 := by
        simp [hs1]
      have hqo1 : s1._query_options = s._query_options := rfl
      refine ⟨?_, ?_, ?_, ?_⟩
      · simp only [List.length_cons]
        unfold expected_accepts
        rw [hih.1, hlen1, hqo1]
        simp [h]
      · rw [hih.2.1, hlen1, hqo1]
        have hsucc : max_errors_as_size_t s._query_options - s._error_log.length =
            (max_errors_as_size_t s._query_options - (s._error_log.length + 1)) + 1 := by
          omega
        rw [hsucc, List.take_succ_cons]
        simp [hs1]
      · rw [hih.2.2.1, hqo1]
      · rw [hih.2.2.2]
    · rw [if_neg h]
      have hih := ih s
      refine ⟨?_, ?_, ?_, ?_⟩
      · simp only [List.length_cons]
        unfold expected_accepts
        rw [hih.1]
        rw [expected_accepts_of_cap_le _ _ _ (by omega),
          expected_accepts_of_cap_le _ _ _ (by omega)]
        simp [h]
      · rw [hih.2.1]
        have h0 : max_errors_as_size_t s._query_options - s._error_log.length = 0 := by omega
        rw [h0]
        simp
      · exact hih.2.2.1
      · exact hih.2.2.2

/-- Every single error-log operation preserves the cursor invariant. -/
theorem apply_error_op_preserves (s : RuntimeState) (op : ErrorOp)
    (h : s._unreported_error_idx ≤ s._error_log.length) :
    (apply_error_op s op)._unreported_error_idx ≤
      (apply_error_op s op)._error_log.length := by
  cases op with
  | logError m =>
    show ((s.log_error m).2)._unreported_error_idx ≤ ((s.log_error m).2)._error_log.length
    unfold RuntimeState.log_error
    split
    · simp
      omega
    · exact h
  | getUnreported =>
    show ((s.get_unreported_errors []).2)._unreported_error_idx ≤
      ((s.get_unreported_errors []).2)._error_log.length
    unfold RuntimeState.get_unreported_errors
    split
    · simp
    · exact h
  | errorLogRead => exact h

/-! ### Claim theorems -/

/-- C2: for every sequence of `set_mem_limit_exceeded` calls, the first call
finding the process status OK records a memory-limit-exceeded status (with the
caller's custom message if supplied, a generic one otherwise), and every call
of the sequence returns that same recorded status — subsequent calls return it
unchanged without overwriting it. -/
theorem C2_set_mem_limit_first_failure_wins (pretty : Int → String) (s : RuntimeState)
    (h : s._process_status = Status.ok) (c : MemLimitCall) (cs : List MemLimitCall) :
    ((run_set_mem_limit_calls pretty s (c :: cs)).2)._process_status =
      mem_limit_status c.msg ∧
    (run_set_mem_limit_calls pretty s (c :: cs)).1 =
      List.replicate (cs.length + 1) (mem_limit_status c.msg) := by
  have hfirst :=
    set_mem_limit_exceeded_of_ok s c.tracker_label pretty c.failed_allocation_size c.msg h
  have hfail :
      ((s.set_mem_limit_exceeded c.tracker_label pretty
        c.failed_allocation_size c.msg).2)._process_status.isOk = false := by
    rw [hfirst.2]; exact mem_limit_status_not_ok c.msg
  simp only [run_set_mem_limit_calls]
  rw [run_set_mem_limit_calls_of_failed pretty _ cs hfail]
  refine ⟨hfirst.2, ?_⟩
  rw [hfirst.1, hfirst.2, List.replicate_succ]

/-- C3: with `max_errors = N > 0` configured and `M > N` messages logged into
an initially empty log, the first `N` calls are accepted (returning `true`),
the remaining `M - N` are rejected (returning `false`), and the log afterwards
holds exactly the first `N` messages. -/
theorem C3_error_log_bound (s : RuntimeState) (msgs : List String) (N : Int)
    (hmax : s._query_options.max_errors = N) (hpos : 0 < N) (hrange : N < 2 ^ 31)
    (hempty : s._error_log = []) (hM : N.toNat < msgs.length) :
    (run_log_errors s msgs).1 =
      List.replicate N.toNat true ++ List.replicate (msgs.length - N.toNat) false ∧
    ((run_log_errors s msgs).2)._error_log = msgs.take N.toNat := by
  have hcap : max_errors_as_size_t s._query_options = N.toNat := by
    unfold max_errors_as_size_t
    rw [hmax]
    omega
  have hspec := run_log_errors_spec msgs s
  constructor
  · rw [hspec.1, hempty, hcap]
    simp only [List.length_nil]
    rw [expected_accepts_closed]
    have h1 : N.toNat - 0 = N.toNat := by omega
    have h2 : min msgs.length N.toNat = N.toNat := by omega
    rw [h1, h2]
  · rw [hspec.2.1, hempty, hcap]
    simp

/-- C4: `get_unreported_errors` (called with a fresh out-vector) returns every
entry from the unreported cursor to the end, advances the cursor to the log's
length without touching the log, returns a non-empty batch when at least one
entry is undelivered, and an immediate second call returns nothing and changes
nothing (drain-once). -/
theorem C4_get_unreported_errors_drain_once (s : RuntimeState)
    (h : s._unreported_error_idx ≤ s._error_log.length) :
    (s.get_unreported_errors []).1 = s._error_log.drop s._unreported_error_idx ∧
    ((s.get_unreported_errors []).2)._error_log = s._error_log ∧
    ((s.get_unreported_errors []).2)._unreported_error_idx = s._error_log.length ∧
    (s._unreported_error_idx < s._error_log.length → (s.get_unreported_errors []).1 ≠ []) ∧
    (((s.get_unreported_errors []).2).get_unreported_errors []).1 = [] ∧
    (((s.get_unreported_errors []).2).get_unreported_errors []).2 =
      (s.get_unreported_errors []).2 := by
  by_cases hlt : s._unreported_error_idx < s._error_log.length
  · have h1 : s.get_unreported_errors [] =
        (s._error_log.drop s._unreported_error_idx,
          { s with _unreported_error_idx := s._error_log.length }) := by
      unfold RuntimeState.get_unreported_errors
      rw [if_pos hlt]
    rw [h1]
    refine ⟨rfl, rfl, rfl, ?_, ?_, ?_⟩
    · intro _ hnil
      have hlen := congrArg List.length hnil
      simp at hlen
      omega
    · unfold RuntimeState.get_unreported_errors
      rw [if_neg (by simp)]
    · unfold RuntimeState.get_unreported_errors
      rw [if_neg (by simp)]
  · have h0 : s.get_unreported_errors [] = ([], s) := by
      unfold RuntimeState.get_unreported_errors
      rw [if_neg hlt]
    rw [h0]
    refine ⟨?_, rfl, ?_, ?_, ?_, ?_⟩
    · exact (List.drop_eq_nil_of_le (by omega)).symm
    · show s._unreported_error_idx = s._error_log.length
      omega
    · intro hc
      exact absurd hc hlt
    · rw [h0]
    · rw [h0]

/-- C5: timezone resolution precedence, identically in `init` and in the
globals-only constructor: an explicit zone wins together with the supplied
timestamp; otherwise a non-empty "now" string resolves to the default zone
with the parsed timestamp times 1000; otherwise the default zone with
timestamp 0. -/
theorem C5_timezone_resolution_precedence (parse : String → Int) (s : RuntimeState)
    (qo : TQueryOptions) (g : TQueryGlobals) :
    (g.isset_time_zone = true →
      (s.init parse qo g)._timezone = g.time_zone ∧
      (s.init parse qo g)._timestamp_ms = g.timestamp_ms) ∧
    (g.isset_time_zone = false → g.now_string ≠ "" →
      (s.init parse qo g)._timezone = default_time_zone ∧
      (s.init parse qo g)._timestamp_ms = parse g.now_string * 1000) ∧
    (g.isset_time_zone = false → g.now_string = "" →
      (s.init parse qo g)._timezone = default_time_zone ∧
      (s.init parse qo g)._timestamp_ms = 0) ∧
    (RuntimeState.fromQueryGlobals parse qo g)._timezone = (s.init parse qo g)._timezone ∧
    (RuntimeState.fromQueryGlobals parse qo g)._timestamp_ms =
      (s.init parse qo g)._timestamp_ms := by
  refine ⟨?_, ?_, ?_, ?_, ?_⟩
  · intro h
    constructor <;> simp [RuntimeState.init, resolve_timezone, h]
  · intro h h2
    constructor <;> simp [RuntimeState.init, resolve_timezone, h, h2]
  · intro h h2
    constructor <;> simp [RuntimeState.init, resolve_timezone, h, h2]
  · simp [RuntimeState.init, RuntimeState.fromQueryGlobals]
  · simp [RuntimeState.init, RuntimeState.fromQueryGlobals]

/-- C6: starting from an empty log with cursor 0, every interleaving of
`log_error`, `get_unreported_errors` and `error_log` keeps the unreported
cursor at or below the log's length. -/
theorem C6_unreported_cursor_invariant (s : RuntimeState) (h1 : s._error_log = [])
    (h2 : s._unreported_error_idx = 0) (ops : List ErrorOp) :
    (run_error_ops s ops)._unreported_error_idx ≤
      (run_error_ops s ops)._error_log.length := by
  have inv : s._unreported_error_idx ≤ s._error_log.length := by
    rw [h1, h2]
    simp
  clear h1 h2
  induction ops generalizing s with
  | nil => exact inv
  | cons op ops ih =>
    have hstep : run_error_ops s (op :: ops) = run_error_ops (apply_error_op s op) ops := by
      simp [run_error_ops]
    rw [hstep]
    exact ih (apply_error_op s op) (apply_error_op_preserves s op inv)

/-- C7: for a fragment whose query type is not LOAD, any number of
`append_error_msg_to_file` calls leaves the state exactly as it was: no error
file is created, the printed-row counter is untouched, nothing is exported. -/
theorem C7_load_only_gating (open_ok : Bool) (s : RuntimeState)
    (h : s._query_options.query_type ≠ TQueryType.LOAD)
    (calls : List (String × String × Bool)) :
    run_error_file_calls open_ok s calls = s := by
  induction calls with
  | nil => rfl
  | cons c cs ih =>
    have h1 : s.append_error_msg_to_file open_ok c.1 c.2.1 c.2.2 = s := by
      unfold RuntimeState.append_error_msg_to_file
      rw [if_pos h]
    have h2 : run_error_file_calls open_ok s (c :: cs) =
        run_error_file_calls open_ok (s.append_error_msg_to_file open_ok c.1 c.2.1 c.2.2) cs := by
      simp [run_error_file_calls]
    rw [h2, h1]
    exact ih

/-- C8: `error_log()` returns the newline-joined concatenation of the whole
log, changes nothing, and a subsequent `get_unreported_errors` still returns
everything not yet drained. -/
theorem C8_error_log_snapshot (s : RuntimeState) :
    (s.error_log).1 = String.intercalate "\n" s._error_log ∧
    (s.error_log).2 = s ∧
    (((s.error_log).2).get_unreported_errors []).1 =
      s._error_log.drop s._unreported_error_idx := by
  refine ⟨rfl, rfl, ?_⟩
  have h2 : (s.error_log).2 = s := rfl
  rw [h2]
  unfold RuntimeState.get_unreported_errors
  split
  · rfl
  · next hge =>
    exact (List.drop_eq_nil_of_le (by omega)).symm

/-- C9: `log_error(Status)` leaves the state unchanged for an OK status and
otherwise behaves exactly as `log_error(string)` on the status's message. -/
theorem C9_log_error_status_delegates (s : RuntimeState) (status : Status) :
    (status = Status.ok → s.log_error_status status = s) ∧
    (status ≠ Status.ok →
      s.log_error_status status = (s.log_error status.get_error_msg).2) := by
  constructor
  · intro h
    subst h
    rfl
  · intro h
    cases status with
    | ok => exact absurd rfl h
    | memoryLimitExceeded m => rfl
    | internalError m => rfl
    | cancelled m => rfl

/-- C10: after `init`, the effective `max_errors` is positive — a supplied
non-positive value is replaced by 100 and a positive one kept — and a
non-positive `batch_size` is replaced by the default; the globals-only
constructor instead sets only the batch-size default and leaves `max_errors`
at whatever the thrift defaults supplied, so that path does not guarantee a
positive admission bound. -/
theorem C10_init_defaults_vs_globals_constructor (parse : String → Int) (s : RuntimeState)
    (qo thrift_defaults : TQueryOptions) (g : TQueryGlobals) :
    (qo.max_errors ≤ 0 → (s.init parse qo g)._query_options.max_errors = 100) ∧
    (0 < qo.max_errors → (s.init parse qo g)._query_options.max_errors = qo.max_errors) ∧
    0 < (s.init parse qo g)._query_options.max_errors ∧
    (qo.batch_size ≤ 0 →
      (s.init parse qo g)._query_options.batch_size = DEFAULT_BATCH_SIZE) ∧
    (0 < qo.batch_size → (s.init parse qo g)._query_options.batch_size = qo.batch_size) ∧
    (RuntimeState.fromQueryGlobals parse thrift_defaults g)._query_options.max_errors =
      thrift_defaults.max_errors ∧
    (RuntimeState.fromQueryGlobals parse thrift_defaults g)._query_options.batch_size =
      DEFAULT_BATCH_SIZE := by
  have hme : (s.init parse qo g)._query_options.max_errors =
      if qo.max_errors ≤ 0 then 100 else qo.max_errors := by
    unfold RuntimeState.init
    by_cases h1 : qo.max_errors ≤ 0 <;> by_cases h2 : qo.batch_size ≤ 0 <;>
      simp [h1, h2]
  have hbs : (s.init parse qo g)._query_options.batch_size =
      if qo.batch_size ≤ 0 then DEFAULT_BATCH_SIZE else qo.batch_size := by
    unfold RuntimeState.init
    by_cases h1 : qo.max_errors ≤ 0 <;> by_cases h2 : qo.batch_size ≤ 0 <;>
      simp [h1, h2]
  refine ⟨?_, ?_, ?_, ?_, ?_, ?_, ?_⟩
  · intro h
    rw [hme, if_pos h]
  · intro h
    rw [hme, if_neg (by omega)]
  · rw [hme]
    split <;> omega
  · intro h
    rw [hbs, if_pos h]
  · intro h
    rw [hbs, if_neg (by omega)]
  · rfl
  · rfl

/-- The 61 calls of the claim-C1 scenario: 60 non-summary messages followed
by one summary message. -/
def c1_calls : List (String × String × Bool) :=
  List.replicate 60 ("l", "m", false) ++ [("l", "done", true)]

/-- A load fragment state whose error file is already open and empty. -/
def c1_state : RuntimeState :=
  { test_state with _error_log_file := some [] }

/-- C1 counterexample: appending 60 non-summary messages and then 1 summary
message to an open error file writes 51 "Reason:" lines before the summary,
not the 50 the claim states — the check at line 384 compares the
pre-increment counter strictly against the cap of 50, so the 51st call still
passes. -/
theorem C1_error_file_truncation_counterexample :
    (run_error_file_calls true c1_state c1_calls)._error_log_file =
      some (List.replicate 51 "Reason: m. src line: [l]; " ++ ["Summary: done"]) ∧
    (run_error_file_calls true c1_state c1_calls)._error_log_file ≠
      some (List.replicate 50 "Reason: m. src line: [l]; " ++ ["Summary: done"]) := by
  have hcalls : c1_calls =
      (List.replicate 60 ("l", "m")).map (fun p => (p.1, p.2, false)) ++
        [("l", "done", true)] := by
    simp [c1_calls, List.map_replicate]
  have hsplit : run_error_file_calls true c1_state c1_calls =
      (run_error_file_calls true c1_state
        ((List.replicate 60 ("l", "m")).map
          (fun p => (p.1, p.2, false)))).append_error_msg_to_file true "l" "done" true := by
    rw [hcalls]
    simp [run_error_file_calls, List.foldl_append]
  have hrun := run_reasons_effect true (List.replicate 60 ("l", "m")) c1_state [] rfl rfl
  set s1 := run_error_file_calls true c1_state
    ((List.replicate 60 ("l", "m")).map (fun p => (p.1, p.2, false))) with hs1
  have hline : formatted_error_line "l" "m" false = "Reason: m. src line: [l]; " := rfl
  have hload1 : s1._query_options.query_type = TQueryType.LOAD := by
    rw [hrun.2.2]
    rfl
  have hfile1 : s1._error_log_file =
      some (List.replicate 51 "Reason: m. src line: [l]; ") := by
    rw [hrun.1]
    have hcnt : c1_state._num_print_error_rows = 0 := rfl
    rw [hcnt]
    simp [MAX_ERROR_NUM, List.take_replicate, List.map_replicate, hline]
  have hsum := append_error_msg_open_effect true s1 _ "l" "done" true hload1 hfile1
  have hsumline : formatted_error_line "l" "done" true = "Summary: done" := rfl
  have hfinal : (run_error_file_calls true c1_state c1_calls)._error_log_file =
      some (List.replicate 51 "Reason: m. src line: [l]; " ++ ["Summary: done"]) := by
    rw [hsplit, hsum.1]
    simp [hsumline]
  refine ⟨hfinal, ?_⟩
  rw [hfinal]
  intro hcontra
  have hlen := congrArg (fun o : Option (List String) => (o.getD []).length) hcontra
  simp at hlen

/-- C1 (amended): with the printed-row cap fixed at 50, for a load-type
fragment with an open empty error file and printed counter 0, calling
`append_error_msg_to_file` with 60 non-summary messages and then 1 summary
message writes exactly 51 "Reason:" lines to the file followed by the 1
"Summary:" line; the remaining 9 non-summary lines are suppressed, and
summary lines are always written regardless of the counter. -/
theorem C1_error_file_truncation_amended (open_ok : Bool) (s : RuntimeState)
    (reasons : List (String × String)) (sum_line sum_msg : String)
    (hload : s._query_options.query_type = TQueryType.LOAD)
    (hfile : s._error_log_file = some [])
    (hcount : s._num_print_error_rows = 0)
    (hlen : reasons.length = 60) :
    (run_error_file_calls open_ok s
        (reasons.map (fun p => (p.1, p.2, false)) ++
          [(sum_line, sum_msg, true)]))._error_log_file =
      some ((reasons.take 51).map (fun p => formatted_error_line p.1 p.2 false) ++
        ["Summary: " ++ sum_msg]) ∧
    ((reasons.take 51).map (fun p => formatted_error_line p.1 p.2 false)).length = 51 := by
  have hsplit : run_error_file_calls open_ok s
      (reasons.map (fun p => (p.1, p.2, false)) ++ [(sum_line, sum_msg, true)]) =
      (run_error_file_calls open_ok s
        (reasons.map (fun p => (p.1, p.2, false)))).append_error_msg_to_file open_ok
          sum_line sum_msg true := by
    simp [run_error_file_calls, List.foldl_append]
  have hrun := run_reasons_effect open_ok reasons s [] hload hfile
  set s1 := run_error_file_calls open_ok s (reasons.map (fun p => (p.1, p.2, false))) with hs1
  have hload1 : s1._query_options.query_type = TQueryType.LOAD := by
    rw [hrun.2.2]
    exact hload
  have hfile1 : s1._error_log_file =
      some ((reasons.take 51).map (fun p => formatted_error_line p.1 p.2 false)) := by
    rw [hrun.1, hcount]
    simp [MAX_ERROR_NUM]
  have hsum := append_error_msg_open_effect open_ok s1 _ sum_line sum_msg true hload1 hfile1
  constructor
  · rw [hsplit, hsum.1]
    simp [formatted_error_line]
  · simp [List.length_take, hlen]

/-! ### Witnesses: each proved claim theorem with hypotheses, instantiated on
concrete data with its hypotheses discharged -/

/-- Witness for the amended C1 theorem on concrete data. -/
theorem C1_error_file_truncation_amended_witness :
    (run_error_file_calls true c1_state
        ((List.replicate 60 ("l", "m")).map (fun p => (p.1, p.2, false)) ++
          [("l", "done", true)]))._error_log_file =
      some (((List.replicate 60 ("l", "m")).take 51).map
        (fun p => formatted_error_line p.1 p.2 false) ++ ["Summary: " ++ "done"]) :=
  (C1_error_file_truncation_amended true c1_state (List.replicate 60 ("l", "m")) "l" "done"
    rfl rfl rfl (by simp)).1

/-- Witness for C2 on a two-call sequence. -/
theorem C2_set_mem_limit_first_failure_wins_witness :
    ((run_set_mem_limit_calls (fun _ => "8 B") test_state
        [⟨"t", 8, some "query exceeded"⟩, ⟨"u", 16, none⟩]).2)._process_status =
      mem_limit_status (some "query exceeded") ∧
    (run_set_mem_limit_calls (fun _ => "8 B") test_state
        [⟨"t", 8, some "query exceeded"⟩, ⟨"u", 16, none⟩]).1 =
      List.replicate 2 (mem_limit_status (some "query exceeded")) :=
  C2_set_mem_limit_first_failure_wins (fun _ => "8 B") test_state rfl
    ⟨"t", 8, some "query exceeded"⟩ [⟨"u", 16, none⟩]

/-- A load fragment state configured with `max_errors = 2`. -/
def test_state_me2 : RuntimeState :=
  { test_state with _query_options := { test_options with max_errors := 2 } }

/-- Witness for C3 with `N = 2` and `M = 3`. -/
theorem C3_error_log_bound_witness :
    (run_log_errors test_state_me2 ["a", "b", "c"]).1 = [true, true, false] ∧
    ((run_log_errors test_state_me2 ["a", "b", "c"]).2)._error_log = ["a", "b"] := by
  have h := C3_error_log_bound test_state_me2 ["a", "b", "c"] 2 rfl (by decide)
    (by decide) rfl (by decide)
  refine ⟨?_, ?_⟩
  · rw [h.1]
    decide
  · rw [h.2]
    decide

/-- A state holding one undelivered error. -/
def test_state_one_error : RuntimeState :=
  { test_state with _error_log := ["bad row"] }

/-- Witness for C4: one undelivered entry, drained once. -/
theorem C4_get_unreported_errors_drain_once_witness :
    (test_state_one_error.get_unreported_errors []).1 = ["bad row"] ∧
    (((test_state_one_error.get_unreported_errors []).2).get_unreported_errors []).1 = [] := by
  have h := C4_get_unreported_errors_drain_once test_state_one_error (by decide)
  refine ⟨?_, h.2.2.2.2.1⟩
  rw [h.1]
  decide

/-- Witness for C5 on globals carrying an explicit time zone. -/
theorem C5_timezone_resolution_precedence_witness :
    (test_state.init (fun _ => 7) test_options
      ⟨true, "America/New_York", 123, ""⟩)._timezone = "America/New_York" ∧
    (test_state.init (fun _ => 7) test_options
      ⟨true, "America/New_York", 123, ""⟩)._timestamp_ms = 123 :=
  (C5_timezone_resolution_precedence (fun _ => 7) test_state test_options
    ⟨true, "America/New_York", 123, ""⟩).1 rfl

/-- Witness for C6 on a concrete interleaving of all three operations. -/
theorem C6_unreported_cursor_invariant_witness :
    (run_error_ops test_state
        [ErrorOp.logError "a", ErrorOp.getUnreported, ErrorOp.logError "b",
          ErrorOp.errorLogRead])._unreported_error_idx ≤
      (run_error_ops test_state
        [ErrorOp.logError "a", ErrorOp.getUnreported, ErrorOp.logError "b",
          ErrorOp.errorLogRead])._error_log.length :=
  C6_unreported_cursor_invariant test_state rfl rfl
    [ErrorOp.logError "a", ErrorOp.getUnreported, ErrorOp.logError "b",
      ErrorOp.errorLogRead]

/-- A select-fragment (non-load) state. -/
def test_state_select : RuntimeState :=
  { test_state with _query_options := { test_options with query_type := TQueryType.SELECT } }

/-- Witness for C7 on a non-load fragment with two calls. -/
theorem C7_load_only_gating_witness :
    run_error_file_calls true test_state_select
      [("l1", "m1", false), ("l2", "m2", true)] = test_state_select :=
  C7_load_only_gating true test_state_select (by decide)
    [("l1", "m1", false), ("l2", "m2", true)]

/-- Witness for C9 on an OK and a non-OK status. -/
theorem C9_log_error_status_delegates_witness :
    test_state.log_error_status Status.ok = test_state ∧
    test_state.log_error_status (Status.internalError "boom") =
      (test_state.log_error (Status.internalError "boom").get_error_msg).2 :=
  ⟨(C9_log_error_status_delegates test_state Status.ok).1 rfl,
    (C9_log_error_status_delegates test_state (Status.internalError "boom")).2 (by decide)⟩

/-- Thrift-default options with a non-positive `max_errors`, as the
globals-only constructor may receive them. -/
def thrift_default_options : TQueryOptions :=
  { query_type := TQueryType.SELECT, max_errors := 0, batch_size := 0 }

/-- Witness for C10: `init` lifts `max_errors = 0` to 100, the globals-only
constructor leaves it at 0. -/
theorem C10_init_defaults_vs_globals_constructor_witness :
    (test_state.init (fun _ => 7) thrift_default_options
      ⟨false, "", 0, ""⟩)._query_options.max_errors = 100 ∧
    (RuntimeState.fromQueryGlobals (fun _ => 7) thrift_default_options
      ⟨false, "", 0, ""⟩)._query_options.max_errors = 0 := by
  have h := C10_init_defaults_vs_globals_constructor (fun _ => 7) test_state
    thrift_default_options thrift_default_options ⟨false, "", 0, ""⟩
  exact ⟨h.1 (by decide), h.2.2.2.2.2.1⟩

end starrocks
